import Mathlib

/-!
Verification development for the Telegram-blockpost-bot repository.

The embedding translates the two source modules:

* `UsersHandler.py` — a user store kept as a JSON list of records; the
  persistence layer (`JSONReaderWriter.load_json`) either yields the list or
  `None`, which is modelled as `Option (List User)`.
* `BotHandler.py` — the message/command handlers and the supervisor loop in
  `start_bot`.

The network transport is modelled by recording, for every handler call, the
list of outbound sends it performs (in order), where the recorded text is the
wire text after `_send_safe`'s escape expansion.
-/

/-- UserProfile record, the element shape of the JSON users database:
keys `id`, `username`, `full_name`, `admin`, `banned`, `messages_total`
(see `UsersHandler._create_user`). -/
structure User where
  id : Int
  username : String
  full_name : String
  admin : Bool
  banned : Bool
  messages_total : Nat
deriving DecidableEq

/-- One outbound Telegram message: `send_message(chat_id=..., text=...)`.
The `text` field records the wire text, after any escape expansion the
sending code performs. -/
structure Send where
  chat_id : Int
  text : String
deriving DecidableEq

/-- The configuration keys of `config.json` that the handlers consult. -/
structure Config where
  user_max_messages : Nat
  confirmation_message : String
  banned_message : String
  ban_confirmation_message : String
  unban_confirmation_message : String
  resetmessages_confirmation_message : String
  admin_message : String
  restart_message_start : String
  restart_message_done : String
deriving DecidableEq

/-- The parts of a `telegram.Update` (plus `context.args`) that the handlers
read: `update.effective_chat.id`, `update.message.from_user.username`,
`update.message.from_user.full_name` (both `None` when absent),
`update.message.text`, and the command arguments. -/
structure TUpdate where
  chat_id : Int
  username : Option String
  full_name : Option String
  text : String
  args : List String
deriving DecidableEq

/-! ## String primitives (Python `str.replace`, `str.strip`, `str`) -/

/-- Replacement of every non-overlapping occurrence of the two-character
pattern `a b` by `r`, scanning left to right: the semantics of Python
`text.replace(p, r)` for a two-character pattern `p`. -/
def replace2 (a b : Char) (r : List Char) : List Char → List Char
  | [] => []
  | [c] => [c]
  | c :: d :: rest =>
    if c = a ∧ d = b then r ++ replace2 a b r rest
    else c :: replace2 a b r (d :: rest)

/-- The text `_send_safe` puts on the wire:
`text.replace("\\n", "\n").replace("\\t", "\t")` (BotHandler.py line 56). -/
def expand_message (t : String) : String :=
  ⟨replace2 '\\' 't' ['\t'] (replace2 '\\' 'n' ['\n'] t.data)⟩

/-- The text the post-restart watcher thread puts on the wire:
`config["restart_message_done"].replace("\\n", "\n")` (BotHandler.py
line 380) — only the newline escape is expanded there. -/
def restart_done_text (t : String) : String :=
  ⟨replace2 '\\' 'n' ['\n'] t.data⟩

/-- Python whitespace characters stripped by `str.strip()`. -/
def py_whitespace (c : Char) : Bool :=
  c == ' ' || c == '\t' || c == '\n' || c == '\r' || c == '\x0b' || c == '\x0c'

/-- Python `str.strip()`: drop leading and trailing whitespace. -/
def strip (s : String) : String :=
  ⟨((s.data.dropWhile py_whitespace).reverse.dropWhile py_whitespace).reverse⟩

/-- Python `str(True)` / `str(False)`. -/
def py_bool (b : Bool) : String := if b then "True" else "False"

/-- Value of the digit list of a decimal numeral. -/
def digits_to_nat (ds : List Char) : Nat :=
  ds.foldl (fun a c => a * 10 + (c.toNat - 48)) 0

/-- Python `int(s)` on an already-stripped string: an optional sign followed
by at least one decimal digit; any other shape raises `ValueError`,
modelled as `none`. -/
def parse_int (s : String) : Option Int :=
  match s.data with
  | [] => none
  | '+' :: ds =>
    if ds.isEmpty || !ds.all Char.isDigit then none
    else some (digits_to_nat ds : Nat)
  | '-' :: ds =>
    if ds.isEmpty || !ds.all Char.isDigit then none
    else some (-(digits_to_nat ds : Nat))
  | ds =>
    if !ds.all Char.isDigit then none
    else some (digits_to_nat ds : Nat)

/-- Text of the `ValueError` raised by `int()` on a bad
argument, which `/ban`, `/unban` and `/resetmessages` send back verbatim. -/
def int_parse_error (arg : String) : String :=
  "invalid literal for int() with base 10: " ++ arg

/-! ## The user store (`UsersHandler.py`) -/

/-- Default profile built by `UsersHandler._create_user`. -/
def default_user (id_ : Int) : User :=
  { id := id_, username := "", full_name := "", admin := false,
    banned := false, messages_total := 0 }

/-- The lookup loop of `UsersHandler.get_user_by_id`: return the first
record whose `id` matches. -/
def find_user (users : List User) (id_ : Int) : Option User :=
  match users with
  | [] => none
  | u :: rest => if u.id = id_ then some u else find_user rest id_

/-- The body of `UsersHandler.save_user` on a non-`None` argument: find the
first index with a matching `id` and merge every supplied key into that
record — every key is always supplied, so the merge overwrites the whole
record — or append the record when no `id` matches. -/
def upsert (users : List User) (ud : User) : List User :=
  match users with
  | [] => [ud]
  | u :: rest => if u.id = ud.id then ud :: rest else u :: upsert rest ud

/-- Model of `UsersHandler.read_users`: the persistence layer yields `none` when the
database cannot be read, in which case the empty list is returned. -/
def read_users (s : Option (List User)) : List User :=
  match s with
  | none => []
  | some users => users

/-- Model of `UsersHandler.save_user`: a `None` argument returns immediately;
otherwise read the collection, upsert, and write it back. -/
def save_user (s : Option (List User)) (user_data : Option User) :
    Option (List User) :=
  match user_data with
  | none => s
  | some ud => some (upsert (read_users s) ud)

/-- Model of the private create-user helper of UsersHandler: build the default profile, save it, and
return it. -/
def create_user (s : Option (List User)) (id_ : Int) :
    User × Option (List User) :=
  (default_user id_, save_user s (some (default_user id_)))

/-- Model of `UsersHandler.get_user_by_id`: first matching record, or create and
persist a default profile. The second component is the store afterwards. -/
def get_user_by_id (s : Option (List User)) (id_ : Int) :
    User × Option (List User) :=
  match find_user (read_users s) id_ with
  | some u => (u, s)
  | none => create_user s id_

/-- Store invariant: no two records share an `id`. -/
def ids_unique (users : List User) : Prop :=
  (users.map User.id).Nodup

instance (users : List User) : Decidable (ids_unique users) :=
  inferInstanceAs (Decidable ((users.map User.id).Nodup))

/-! ## The bot handlers (`BotHandler.py`) -/

/-- Wire message produced by `_send_safe(chat_id, text, context)`: the text
is sent with the `\\n` and `\\t` escapes expanded. -/
def send_safe (chat_id : Int) (text : String) : Send :=
  { chat_id := chat_id, text := expand_message text }

/-- The ban notice sent at the end of `_user_check_get`: the configured
`banned_message` is stripped and sent only when non-empty. -/
def banned_notice (cfg : Config) (chat_id : Int) : List Send :=
  if 0 < (strip cfg.banned_message).length
  then [send_safe chat_id (strip cfg.banned_message)]
  else []

/-- Username refresh step of `_user_check_get`: when the transport supplied
a username, overwrite the profile field and save. -/
def refresh_username (upd : TUpdate) (p : User × Option (List User)) :
    User × Option (List User) :=
  match upd.username with
  | some un =>
    let u := { p.1 with username := un }
    (u, save_user p.2 (some u))
  | none => p

/-- Full-name refresh step of `_user_check_get`. -/
def refresh_full_name (upd : TUpdate) (p : User × Option (List User)) :
    User × Option (List User) :=
  match upd.full_name with
  | some fn =>
    let u := { p.1 with full_name := fn }
    (u, save_user p.2 (some u))
  | none => p

/-- Model of the private user-check prologue of BotHandler: resolve-or-create the sender's profile,
refresh the display fields (persisting after each change), and send the
ban notice when the profile is banned. Returns the resolved profile, the
store afterwards, and the sends performed. -/
def user_check_get (cfg : Config) (s : Option (List User)) (upd : TUpdate) :
    User × Option (List User) × List Send :=
  let p := refresh_full_name upd (refresh_username upd (get_user_by_id s upd.chat_id))
  (p.1, p.2, if p.1.banned then banned_notice cfg upd.chat_id else [])

/-- Resolved sender profile of the `_user_check_get` prologue. -/
def checked_user (cfg : Config) (s : Option (List User)) (upd : TUpdate) : User :=
  (user_check_get cfg s upd).1

/-- Store after the `_user_check_get` prologue. -/
def checked_store (cfg : Config) (s : Option (List User)) (upd : TUpdate) :
    Option (List User) :=
  (user_check_get cfg s upd).2.1

/-- Sends performed by the `_user_check_get` prologue. -/
def checked_sends (cfg : Config) (s : Option (List User)) (upd : TUpdate) :
    List Send :=
  (user_check_get cfg s upd).2.2

/-- Sender-information header prepended to a relayed message:
`"{0} (@{1}) ({2})\n\n".format(full_name, username, id)`. -/
def user_info_header (u : User) : String :=
  u.full_name ++ " (@" ++ u.username ++ ") (" ++ toString u.id ++ ")\n\n"

/-- The broadcast loop of `bot_message`: one `_send_safe` per stored profile
whose `admin` flag is true, in store order. -/
def admin_broadcast (users : List User) (text : String) : List Send :=
  (users.filter (fun u => u.admin)).map (fun u => send_safe u.id text)

/-- Model of `BotHandler.bot_message`: free-text handler. Returns the store and the
sends performed, in order. -/
def bot_message (cfg : Config) (s : Option (List User)) (upd : TUpdate) :
    Option (List User) × List Send :=
  let user := checked_user cfg s upd
  let s1 := checked_store cfg s upd
  let sends0 := checked_sends cfg s upd
  if user.banned then (s1, sends0)
  else if user.admin then (s1, sends0)
  else
    let user2 := { user with messages_total := user.messages_total + 1 }
    let s2 := save_user s1 (some user2)
    if user2.messages_total ≤ cfg.user_max_messages then
      (s2, sends0 ++ admin_broadcast (read_users s2) (user_info_header user2 ++ upd.text)
            ++ [send_safe user2.id cfg.confirmation_message])
    else (s2, sends0)

/-- Model of `BotHandler.bot_command_start`: `form` is the form-file contents read at
startup into `self._form_message`. -/
def bot_command_start (cfg : Config) (form : String) (s : Option (List User))
    (upd : TUpdate) : Option (List User) × List Send :=
  let user := checked_user cfg s upd
  let s1 := checked_store cfg s upd
  let sends0 := checked_sends cfg s upd
  if user.banned then (s1, sends0)
  else if user.admin then (s1, sends0 ++ [send_safe user.id cfg.admin_message])
  else (s1, sends0 ++ [send_safe user.id form])

/-- Model of `BotHandler.bot_command_chatid`: replies with the stringified sender id, with no
ban or admin check. -/
def bot_command_chatid (cfg : Config) (s : Option (List User)) (upd : TUpdate) :
    Option (List User) × List Send :=
  let user := checked_user cfg s upd
  let s1 := checked_store cfg s upd
  let sends0 := checked_sends cfg s upd
  (s1, sends0 ++ [send_safe user.id (toString user.id)])

/-- Listing built by `bot_command_users`: header row, then one
tab-separated line per stored profile. -/
def users_message (users : List User) : String :=
  users.foldl
    (fun m u => m ++ toString u.id ++ "\t@" ++ u.username ++ "\t" ++ u.full_name
      ++ "\t" ++ py_bool u.admin ++ "\t" ++ py_bool u.banned ++ "\t"
      ++ toString u.messages_total ++ "\n")
    "id\tUsername\tFull name\tAdmin?\tBanned?\tTotal messages\n\n"

/-- Model of `BotHandler.bot_command_users` (admin-only). -/
def bot_command_users (cfg : Config) (s : Option (List User)) (upd : TUpdate) :
    Option (List User) × List Send :=
  let user := checked_user cfg s upd
  let s1 := checked_store cfg s upd
  let sends0 := checked_sends cfg s upd
  if user.banned then (s1, sends0)
  else if !user.admin then (s1, sends0)
  else (s1, sends0 ++ [send_safe user.id (users_message (read_users s1))])

/-- Model of `BotHandler.bot_command_ban_unban` (admin-only): `ban = true` for
`/ban`, `false` for `/unban`. No argument: silent return. Unparseable
argument: the `ValueError` text is sent back. Otherwise the target profile
is resolved-or-created, its `banned` flag set, and the profile saved. -/
def bot_command_ban_unban (ban : Bool) (cfg : Config) (s : Option (List User))
    (upd : TUpdate) : Option (List User) × List Send :=
  let user := checked_user cfg s upd
  let s1 := checked_store cfg s upd
  let sends0 := checked_sends cfg s upd
  if user.banned then (s1, sends0)
  else if !user.admin then (s1, sends0)
  else
    match upd.args with
    | [] => (s1, sends0)
    | arg0 :: _ =>
      match parse_int (strip arg0) with
      | none => (s1, sends0 ++ [send_safe user.id (int_parse_error (strip arg0))])
      | some ban_user_id =>
        let bu := (get_user_by_id s1 ban_user_id).1
        let s2 := (get_user_by_id s1 ban_user_id).2
        let bu2 := { bu with banned := ban }
        (save_user s2 (some bu2),
         sends0 ++ [send_safe user.id
           (if ban then cfg.ban_confirmation_message
            else cfg.unban_confirmation_message)])

/-- Model of `BotHandler.bot_command_resetmessages` (admin-only): same argument
contract as ban/unban; sets the target's counter to zero. -/
def bot_command_resetmessages (cfg : Config) (s : Option (List User))
    (upd : TUpdate) : Option (List User) × List Send :=
  let user := checked_user cfg s upd
  let s1 := checked_store cfg s upd
  let sends0 := checked_sends cfg s upd
  if user.banned then (s1, sends0)
  else if !user.admin then (s1, sends0)
  else
    match upd.args with
    | [] => (s1, sends0)
    | arg0 :: _ =>
      match parse_int (strip arg0) with
      | none => (s1, sends0 ++ [send_safe user.id (int_parse_error (strip arg0))])
      | some reset_user_id =>
        let ru := (get_user_by_id s1 reset_user_id).1
        let s2 := (get_user_by_id s1 reset_user_id).2
        let ru2 := { ru with messages_total := 0 }
        (save_user s2 (some ru2),
         sends0 ++ [send_safe user.id cfg.resetmessages_confirmation_message])

/-- Model of `BotHandler.bot_command_restart` (admin-only). Besides the store and
the immediate sends, it reports whether `_restart_requested_flag` was set
and the deferred post-restart notice the watcher thread will send (that
notice expands only the `\\n` escape, see `restart_done_text`). -/
def bot_command_restart (cfg : Config) (s : Option (List User)) (upd : TUpdate) :
    Option (List User) × List Send × Bool × Option Send :=
  let user := checked_user cfg s upd
  let s1 := checked_store cfg s upd
  let sends0 := checked_sends cfg s upd
  if user.banned then (s1, sends0, false, none)
  else if !user.admin then (s1, sends0, false, none)
  else
    (s1, sends0 ++ [send_safe user.id cfg.restart_message_start], true,
     some { chat_id := user.id, text := restart_done_text cfg.restart_message_done })

/-! ## The supervisor loop (`BotHandler.start_bot`) -/

/-- Seconds waited before reconnecting after an error
(`RESTART_ON_ERROR_DELAY` in BotHandler.py). -/
def RESTART_ON_ERROR_DELAY : Nat := 10

/-- How one pass of `run_polling` inside `start_bot` ends:
`keyboard_interrupt` is the operator interrupt, `event_loop_closed` is the
exception whose text contains "Event loop is closed" (raised when the
restart command closes the event loop), `other_error` is any other
exception. -/
inductive PollEvent where
  | keyboard_interrupt
  | event_loop_closed
  | other_error
deriving DecidableEq

/-- Outcome of one iteration of the `while True` loop in `start_bot`:
either the loop breaks, or it reconnects after waiting `wait_before`
seconds, with `_restart_requested_flag` equal to `flag_after`. -/
inductive StepResult where
  | exited
  | reconnect (wait_before : Nat) (flag_after : Bool)
deriving DecidableEq

/-- One iteration of the `while True` loop of `start_bot`, given the value
of `_restart_requested_flag` when the poll ends, the way the poll ended,
and whether a `KeyboardInterrupt` arrives during the error-delay sleep. -/
def supervisor_step (restart_requested : Bool) (ev : PollEvent)
    (interrupt_during_wait : Bool) : StepResult :=
  match ev with
  | .keyboard_interrupt => .exited
  | .event_loop_closed =>
    if restart_requested then .reconnect 0 false else .exited
  | .other_error =>
    if restart_requested then .reconnect 0 false
    else if interrupt_during_wait then .exited
    else .reconnect RESTART_ON_ERROR_DELAY false

/-- Runs the supervisor loop over a finite prefix of poll outcomes; `true`
means the loop is still running after consuming them all. -/
def supervisor_run (restart_requested : Bool) :
    List (PollEvent × Bool) → Bool
  | [] => true
  | (ev, intr) :: rest =>
    match supervisor_step restart_requested ev intr with
    | .exited => false
    | .reconnect _ f => supervisor_run f rest

/-- The increment `user["messages_total"] += 1` performed by `bot_message`. -/
def bump (u : User) : User :=
  { u with messages_total := u.messages_total + 1 }

/-- Display-field refresh applied to the resolved profile by
`_user_check_get`, as a function of the profile alone. -/
def refreshed (upd : TUpdate) (u : User) : User :=
  match upd.username, upd.full_name with
  | some un, some fn => { u with username := un, full_name := fn }
  | some un, none => { u with username := un }
  | none, some fn => { u with full_name := fn }
  | none, none => u

/-- Every send in the list carries escape-expanded wire text, i.e. went
through `_send_safe`. -/
def all_expanded (sends : List Send) : Prop :=
  ∀ m ∈ sends, ∃ t, m.text = expand_message t

/-! ## Concrete fixtures used by witnesses and counterexamples -/

/-- Sample configuration. -/
def cfgA : Config :=
  { user_max_messages := 3, confirmation_message := "Message sent",
    banned_message := " You are banned ", ban_confirmation_message := "Banned",
    unban_confirmation_message := "Unbanned",
    resetmessages_confirmation_message := "Reset",
    admin_message := "Admin help", restart_message_start := "Restarting",
    restart_message_done := "Done\\t!" }

/-- Non-admin user already at the quota. -/
def uQuota : User := ⟨5, "u", "U", false, false, 3⟩

def sQuota : Option (List User) := some [uQuota]

def updQuota : TUpdate := ⟨5, none, none, "msg", []⟩

/-- Banned non-admin user. -/
def uBanned : User := ⟨7, "u", "U", false, true, 0⟩

def sBanned : Option (List User) := some [uBanned]

def updBanned : TUpdate := ⟨7, none, none, "hi", []⟩

/-- Non-admin, non-banned sender of the broadcast example. -/
def uAlice : User := ⟨42, "alice", "Alice A", false, false, 0⟩

/-- Admin recipient. -/
def uBoss : User := ⟨2, "adm", "Boss", true, false, 0⟩

def sAlice : Option (List User) := some [uAlice, uBoss]

def updAlice : TUpdate := ⟨42, some "alice", some "Alice A", "hello", []⟩

def sAdmins : Option (List User) := some [uBoss]

/-- Update for a `/ban 42` or `/unban 42` issued by `uBoss`. -/
def updBan : TUpdate := ⟨2, none, none, "", ["42"]⟩

def uDup1 : User := ⟨1, "a", "A", false, false, 0⟩

def uDup2 : User := ⟨2, "b", "B", true, false, 1⟩

def sPair : Option (List User) := some [uDup1, uDup2]

def uNew : User := ⟨3, "c", "C", false, false, 0⟩

/-- Admin issuing `/restart`. -/
def uRoot : User := ⟨9, "r", "Root", true, false, 0⟩

def sRoot : Option (List User) := some [uRoot]

def updRoot : TUpdate := ⟨9, none, none, "", []⟩

/-- Deferred post-restart notice produced for `uRoot` under `cfgA`. -/
def dRoot : Send := { chat_id := 9, text := restart_done_text cfgA.restart_message_done }

/-! ## Store lemmas -/

theorem find_user_id {users : List User} {i : Int} {u : User}
    (h : find_user users i = some u) : u.id = i := by
  induction users with
  | nil => simp [find_user] at h
  | cons a rest ih =>
    rw [find_user] at h
    split at h
    · cases h; assumption
    · exact ih h

theorem find_upsert_same (users : List User) (ud : User) :
    find_user (upsert users ud) ud.id = some ud := by
  induction users with
  | nil => simp [upsert, find_user]
  | cons a rest ih =>
    rw [upsert]
    split
    · simp [find_user]
    · case isFalse hne =>
      rw [find_user]
      split
      · case isTrue h' => exact absurd h' hne
      · exact ih

theorem find_upsert_other {v : Int} {ud : User} (h : v ≠ ud.id)
    (users : List User) :
    find_user (upsert users ud) v = find_user users v := by
  induction users with
  | nil => simp [upsert, find_user, Ne.symm h]
  | cons a rest ih =>
    rw [upsert]
    split
    · case isTrue ha =>
      rw [find_user, find_user]
      have : ¬ ud.id = v := fun e => h e.symm
      have : ¬ a.id = v := by rw [ha]; assumption
      simp [*]
    · rw [find_user, find_user]
      split
      · rfl
      · exact ih

theorem find_user_none_mem {users : List User} {v : Int}
    (h : find_user users v = none) : ∀ u ∈ users, u.id ≠ v := by
  induction users with
  | nil => simp
  | cons a rest ih =>
    rw [find_user] at h
    split at h
    · cases h
    · intro u hu
      rcases List.mem_cons.mp hu with rfl | hm
      · assumption
      · exact ih h u hm

theorem find_save_same (s : Option (List User)) (ud : User) :
    find_user (read_users (save_user s (some ud))) ud.id = some ud := by
  simp [save_user, read_users, find_upsert_same]

theorem find_save_other {v : Int} {ud : User} (h : v ≠ ud.id)
    (s : Option (List User)) :
    find_user (read_users (save_user s (some ud))) v
      = find_user (read_users s) v := by
  simp [save_user, read_users, find_upsert_other h]

theorem get_found {s : Option (List User)} {i : Int} {u : User}
    (h : find_user (read_users s) i = some u) :
    get_user_by_id s i = (u, s) := by
  rw [get_user_by_id, h]

theorem get_none {s : Option (List User)} {i : Int}
    (h : find_user (read_users s) i = none) :
    get_user_by_id s i
      = (default_user i, save_user s (some (default_user i))) := by
  rw [get_user_by_id, h]; rfl

theorem get_fst_id (s : Option (List User)) (i : Int) :
    (get_user_by_id s i).1.id = i := by
  rw [get_user_by_id]
  cases h : find_user (read_users s) i with
  | none => rfl
  | some u => exact find_user_id h

/-- The profile `get_user_by_id` returns is stored (first match for its id)
in the store `get_user_by_id` leaves behind. -/
theorem get_persisted (s : Option (List User)) (i : Int) :
    find_user (read_users (get_user_by_id s i).2) i
      = some (get_user_by_id s i).1 := by
  rw [get_user_by_id]
  cases h : find_user (read_users s) i with
  | none =>
    show find_user (read_users (save_user s (some (default_user i)))) i = _
    exact find_save_same s (default_user i)
  | some u => exact h

/-- For a different id, the store left behind by `get_user_by_id` resolves
exactly as the store before. -/
theorem find_get_other {v i : Int} (h : v ≠ i) (s : Option (List User)) :
    find_user (read_users (get_user_by_id s i).2) v
      = find_user (read_users s) v := by
  rw [get_user_by_id]
  cases hf : find_user (read_users s) i with
  | none => exact find_save_other h s
  | some u => rfl

theorem find_save_self {u : User} {cid : Int} (h : u.id = cid)
    (S : Option (List User)) :
    find_user (read_users (save_user S (some u))) cid = some u := by
  rw [← h]; exact find_save_same S u

/-! ## Prologue (`_user_check_get`) lemmas -/

theorem checked_user_eq (cfg : Config) (s : Option (List User)) (upd : TUpdate) :
    checked_user cfg s upd = refreshed upd (get_user_by_id s upd.chat_id).1 := by
  obtain ⟨cid, un, fn, tx, ag⟩ := upd
  cases un <;> cases fn <;> rfl

theorem refreshed_id (upd : TUpdate) (u : User) : (refreshed upd u).id = u.id := by
  obtain ⟨cid, un, fn, tx, ag⟩ := upd
  cases un <;> cases fn <;> rfl

theorem refreshed_banned (upd : TUpdate) (u : User) :
    (refreshed upd u).banned = u.banned := by
  obtain ⟨cid, un, fn, tx, ag⟩ := upd
  cases un <;> cases fn <;> rfl

theorem refreshed_admin (upd : TUpdate) (u : User) :
    (refreshed upd u).admin = u.admin := by
  obtain ⟨cid, un, fn, tx, ag⟩ := upd
  cases un <;> cases fn <;> rfl

theorem refreshed_total (upd : TUpdate) (u : User) :
    (refreshed upd u).messages_total = u.messages_total := by
  obtain ⟨cid, un, fn, tx, ag⟩ := upd
  cases un <;> cases fn <;> rfl

theorem checked_user_id (cfg : Config) (s : Option (List User)) (upd : TUpdate) :
    (checked_user cfg s upd).id = upd.chat_id := by
  rw [checked_user_eq, refreshed_id, get_fst_id]

theorem checked_sends_eq (cfg : Config) (s : Option (List User)) (upd : TUpdate) :
    checked_sends cfg s upd
      = if (checked_user cfg s upd).banned then banned_notice cfg upd.chat_id
        else [] := rfl

theorem checked_sends_banned {cfg : Config} {s : Option (List User)}
    {upd : TUpdate} (hb : (checked_user cfg s upd).banned = true) :
    checked_sends cfg s upd = banned_notice cfg upd.chat_id := by
  rw [checked_sends_eq, hb]; rfl

theorem checked_sends_not_banned {cfg : Config} {s : Option (List User)}
    {upd : TUpdate} (hb : (checked_user cfg s upd).banned = false) :
    checked_sends cfg s upd = [] := by
  rw [checked_sends_eq, hb]; rfl

theorem refresh_username_persisted (upd : TUpdate)
    {p : User × Option (List User)}
    (h : find_user (read_users p.2) p.1.id = some p.1) :
    find_user (read_users (refresh_username upd p).2)
        (refresh_username upd p).1.id = some (refresh_username upd p).1 := by
  rw [refresh_username]
  cases upd.username with
  | none => exact h
  | some un => exact find_save_self rfl p.2

theorem refresh_full_name_persisted (upd : TUpdate)
    {p : User × Option (List User)}
    (h : find_user (read_users p.2) p.1.id = some p.1) :
    find_user (read_users (refresh_full_name upd p).2)
        (refresh_full_name upd p).1.id = some (refresh_full_name upd p).1 := by
  rw [refresh_full_name]
  cases upd.full_name with
  | none => exact h
  | some fn => exact find_save_self rfl p.2

theorem refresh_username_fst_id (upd : TUpdate) (p : User × Option (List User)) :
    (refresh_username upd p).1.id = p.1.id := by
  rw [refresh_username]
  cases upd.username <;> rfl

theorem refresh_full_name_fst_id (upd : TUpdate) (p : User × Option (List User)) :
    (refresh_full_name upd p).1.id = p.1.id := by
  rw [refresh_full_name]
  cases upd.full_name <;> rfl

/-- The resolved sender profile is stored (first match for the sender's
chat id) in the store the prologue leaves behind. -/
theorem checked_persisted (cfg : Config) (s : Option (List User)) (upd : TUpdate) :
    find_user (read_users (checked_store cfg s upd)) upd.chat_id
      = some (checked_user cfg s upd) := by
  have h0 : find_user (read_users (get_user_by_id s upd.chat_id).2)
      (get_user_by_id s upd.chat_id).1.id
        = some (get_user_by_id s upd.chat_id).1 := by
    rw [get_fst_id]; exact get_persisted s upd.chat_id
  have h1 := refresh_username_persisted upd h0
  have h2 := refresh_full_name_persisted upd h1
  have hid : (refresh_full_name upd
      (refresh_username upd (get_user_by_id s upd.chat_id))).1.id
        = upd.chat_id := by
    rw [refresh_full_name_fst_id, refresh_username_fst_id, get_fst_id]
  rw [hid] at h2
  exact h2

theorem id_mem_upsert {x : Int} {users : List User} {ud : User}
    (h : x ∈ (upsert users ud).map User.id) :
    x ∈ users.map User.id ∨ x = ud.id := by
  induction users with
  | nil => simpa [upsert] using h
  | cons a rest ih =>
    rw [upsert] at h
    split at h
    · rcases List.mem_cons.mp h with rfl | hm
      · right; rfl
      · left; exact List.mem_cons_of_mem _ hm
    · rcases List.mem_cons.mp h with rfl | hm
      · left; exact List.mem_cons_self _ _
      · rcases ih hm with h' | h'
        · left; exact List.mem_cons_of_mem _ h'
        · right; exact h'

theorem nodup_upsert {users : List User} (ud : User)
    (h : (users.map User.id).Nodup) : ((upsert users ud).map User.id).Nodup := by
  induction users with
  | nil => simp [upsert]
  | cons a rest ih =>
    rw [upsert]
    rw [List.map_cons, List.nodup_cons] at h
    split
    · case isTrue he =>
      rw [List.map_cons, List.nodup_cons]
      exact ⟨by rw [← he]; exact h.1, h.2⟩
    · case isFalse he =>
      rw [List.map_cons, List.nodup_cons]
      refine ⟨fun hm => ?_, ih h.2⟩
      rcases id_mem_upsert hm with h' | h'
      · exact h.1 h'
      · exact he h'

/-! ## Claim theorems -/

/-- C5: in the supervisor loop, an admin-requested restart (flag set, event
loop closed) skips the error delay and reconnects with the flag reset to
false; a generic transport error logs, waits `RESTART_ON_ERROR_DELAY`, and
reconnects with unbounded retries; a `KeyboardInterrupt` (during polling or
during the wait) exits the loop without reconnecting. -/
theorem supervisor_restart_semantics (f i : Bool) (n : Nat) :
    supervisor_step true .event_loop_closed i = .reconnect 0 false
    ∧ supervisor_step false .other_error false
        = .reconnect RESTART_ON_ERROR_DELAY false
    ∧ supervisor_step f .keyboard_interrupt i = .exited
    ∧ supervisor_step false .other_error true = .exited
    ∧ supervisor_run false (List.replicate n (.other_error, false)) = true := by
  refine ⟨rfl, rfl, rfl, rfl, ?_⟩
  induction n with
  | zero => rfl
  | succ k ih =>
    simpa [List.replicate_succ, supervisor_run, supervisor_step] using ih

/-- C6: `get_user_by_id` is idempotent without an intervening save — the
second call returns the very same profile and store; when the id was
absent, the first call created and persisted the default profile. -/
theorem get_or_create_idempotent (s : Option (List User)) (id_ : Int) :
    get_user_by_id (get_user_by_id s id_).2 id_ = get_user_by_id s id_
    ∧ (find_user (read_users s) id_ = none →
        (get_user_by_id s id_).1 = default_user id_
        ∧ (get_user_by_id s id_).2 = save_user s (some (default_user id_))) := by
  constructor
  · rw [get_found (get_persisted s id_)]
  · intro h
    rw [get_none h]
    exact ⟨rfl, rfl⟩

/-- C6 witness: on the unreadable store and id 3, the profile is created
with defaults and the second lookup returns it unchanged. -/
theorem get_or_create_idempotent_witness :
    get_user_by_id (get_user_by_id none 3).2 3 = get_user_by_id none 3
    ∧ (get_user_by_id none 3).1 = default_user 3
    ∧ (get_user_by_id none 3).2 = save_user none (some (default_user 3)) := by
  have h := get_or_create_idempotent none 3
  exact ⟨h.1, (h.2 rfl).1, (h.2 rfl).2⟩

/-- C7: when the persistence layer yields nothing, `read_users` returns the
empty list instead of failing. -/
theorem read_users_unreadable_empty : read_users none = [] := rfl

/-- C8: on a store whose records have pairwise-distinct ids, both
`save_user` (merge-or-append) and `get_user_by_id` leave each id occurring
at most once. -/
theorem ids_unique_preserved (s : Option (List User)) (od : Option User)
    (i : Int) (h : ids_unique (read_users s)) :
    ids_unique (read_users (save_user s od))
    ∧ ids_unique (read_users (get_user_by_id s i).2) := by
  constructor
  · cases od with
    | none => exact h
    | some ud => exact nodup_upsert ud h
  · cases hf : find_user (read_users s) i with
    | some u => rw [get_found hf]; exact h
    | none => rw [get_none hf]; exact nodup_upsert (default_user i) h

/-- C8 witness: concrete two-user store, saving a fresh third user and
looking up an absent id. -/
theorem ids_unique_preserved_witness :
    ids_unique (read_users (save_user sPair (some uNew)))
    ∧ ids_unique (read_users (get_user_by_id sPair 5).2) :=
  ids_unique_preserved sPair (some uNew) 5 (by decide)

/-- C10: `save_user` called with `None` returns normally and leaves the
persisted collection unchanged. -/
theorem save_user_none_noop (s : Option (List User)) : save_user s none = s := rfl

/-- Behaviour of `bot_message` for a non-banned, non-admin sender: the
bumped profile is saved, and the sends depend on the quota check. -/
theorem bot_message_eq {cfg : Config} {s : Option (List User)} {upd : TUpdate}
    (hb : (checked_user cfg s upd).banned = false)
    (ha : (checked_user cfg s upd).admin = false) :
    bot_message cfg s upd
      = (save_user (checked_store cfg s upd)
           (some (bump (checked_user cfg s upd))),
         if (checked_user cfg s upd).messages_total + 1 ≤ cfg.user_max_messages
         then
           admin_broadcast
             (read_users (save_user (checked_store cfg s upd)
               (some (bump (checked_user cfg s upd)))))
             (user_info_header (checked_user cfg s upd) ++ upd.text)
           ++ [send_safe (checked_user cfg s upd).id cfg.confirmation_message]
         else []) := by
  have h1 : ¬((checked_user cfg s upd).banned = true) := by
    rw [hb]; exact Bool.false_ne_true
  have h2 : ¬((checked_user cfg s upd).admin = true) := by
    rw [ha]; exact Bool.false_ne_true
  simp only [bot_message]
  rw [if_neg h1, if_neg h2, checked_sends_not_banned hb]
  by_cases hq :
      (checked_user cfg s upd).messages_total + 1 ≤ cfg.user_max_messages
  · rw [if_pos hq, if_pos hq]; rfl
  · rw [if_neg hq, if_neg hq]; rfl

/-- C1: for a text message from a non-admin, non-banned sender the counter
is incremented and persisted unconditionally; the message is relayed to the
admins and confirmed to the sender iff the updated counter is at most
`user_max_messages`; past the limit nothing at all is sent while the
counter keeps incrementing. -/
theorem quota_enforcement (cfg : Config) (s : Option (List User))
    (upd : TUpdate)
    (hb : (checked_user cfg s upd).banned = false)
    (ha : (checked_user cfg s upd).admin = false) :
    (get_user_by_id (bot_message cfg s upd).1 upd.chat_id).1.messages_total
      = (checked_user cfg s upd).messages_total + 1
    ∧ ((checked_user cfg s upd).messages_total + 1 ≤ cfg.user_max_messages →
        (bot_message cfg s upd).2
          = admin_broadcast (read_users (bot_message cfg s upd).1)
              (user_info_header (checked_user cfg s upd) ++ upd.text)
            ++ [send_safe upd.chat_id cfg.confirmation_message])
    ∧ (cfg.user_max_messages < (checked_user cfg s upd).messages_total + 1 →
        (bot_message cfg s upd).2 = []) := by
  have he := bot_message_eq hb ha
  have hid : (bump (checked_user cfg s upd)).id = upd.chat_id :=
    checked_user_id cfg s upd
  refine ⟨?_, ?_, ?_⟩
  · rw [he]
    dsimp only
    rw [get_found (find_save_self hid (checked_store cfg s upd))]
    rfl
  · intro hq
    rw [he]
    dsimp only
    rw [if_pos hq, checked_user_id]
  · intro hq
    rw [he]
    dsimp only
    rw [if_neg (by omega)]

/-- C1 witness: with the quota already reached, the 4th message is dropped
with no sends while the stored counter still increments to 4. -/
theorem quota_enforcement_witness :
    (get_user_by_id (bot_message cfgA sQuota updQuota).1 5).1.messages_total = 4
    ∧ (bot_message cfgA sQuota updQuota).2 = [] := by
  have h := quota_enforcement cfgA sQuota updQuota (by decide) (by decide)
  exact ⟨h.1.trans (by decide), h.2.2 (by decide)⟩

/-- C2: a banned sender gets exactly the ban notice (sent only when the
stripped configured notice is non-empty) and no further store change or
send from any handler, while `/chatid` always replies with the sender's own
numeric chat id as text, banned or not, admin or not. -/
theorem ban_gate (cfg : Config) (form : String) (s : Option (List User))
    (upd : TUpdate) :
    ((checked_user cfg s upd).banned = true →
      bot_message cfg s upd
        = (checked_store cfg s upd, banned_notice cfg upd.chat_id)
      ∧ bot_command_start cfg form s upd
          = (checked_store cfg s upd, banned_notice cfg upd.chat_id)
      ∧ bot_command_users cfg s upd
          = (checked_store cfg s upd, banned_notice cfg upd.chat_id)
      ∧ (∀ b, bot_command_ban_unban b cfg s upd
          = (checked_store cfg s upd, banned_notice cfg upd.chat_id))
      ∧ bot_command_resetmessages cfg s upd
          = (checked_store cfg s upd, banned_notice cfg upd.chat_id)
      ∧ bot_command_restart cfg s upd
          = (checked_store cfg s upd, banned_notice cfg upd.chat_id, false, none))
    ∧ bot_command_chatid cfg s upd
        = (checked_store cfg s upd,
           checked_sends cfg s upd
             ++ [send_safe upd.chat_id (toString upd.chat_id)]) := by
  constructor
  · intro hb
    have hs := checked_sends_banned hb
    refine ⟨?_, ?_, ?_, fun b => ?_, ?_, ?_⟩
    · simp only [bot_message]; rw [if_pos hb, hs]
    · simp only [bot_command_start]; rw [if_pos hb, hs]
    · simp only [bot_command_users]; rw [if_pos hb, hs]
    · simp only [bot_command_ban_unban]; rw [if_pos hb, hs]
    · simp only [bot_command_resetmessages]; rw [if_pos hb, hs]
    · simp only [bot_command_restart]; rw [if_pos hb, hs]
  · simp only [bot_command_chatid]
    rw [checked_user_id]

/-- C2 witness: the banned user 7 gets only the stripped ban notice from
the text handler, and still gets their chat id from `/chatid`. -/
theorem ban_gate_witness :
    bot_message cfgA sBanned updBanned
      = (checked_store cfgA sBanned updBanned, banned_notice cfgA 7)
    ∧ bot_command_chatid cfgA sBanned updBanned
        = (checked_store cfgA sBanned updBanned,
           checked_sends cfgA sBanned updBanned
             ++ [send_safe 7 (toString (7 : Int))]) :=
  ⟨((ban_gate cfgA "" sBanned updBanned).1 (by decide)).1,
   (ban_gate cfgA "" sBanned updBanned).2⟩

/-- C3: a within-quota text message from a non-admin, non-banned sender is
sent to exactly the stored profiles whose admin flag is true, each copy
prefixed with the sender's full name, handle and id, followed by the fixed
confirmation to the sender. -/
theorem broadcast_to_admins (cfg : Config) (s : Option (List User))
    (upd : TUpdate)
    (hb : (checked_user cfg s upd).banned = false)
    (ha : (checked_user cfg s upd).admin = false)
    (hq : (checked_user cfg s upd).messages_total + 1 ≤ cfg.user_max_messages) :
    (bot_message cfg s upd).2
      = admin_broadcast (read_users (bot_message cfg s upd).1)
          (user_info_header (checked_user cfg s upd) ++ upd.text)
        ++ [send_safe upd.chat_id cfg.confirmation_message] := by
  have he := bot_message_eq hb ha
  rw [he]
  dsimp only
  rw [if_pos hq, checked_user_id]

/-- C3 witness: Alice (id 42, handle alice, full name Alice A) is relayed
to the single admin with the header `Alice A (@alice) (42)` and then
confirmed. -/
theorem broadcast_to_admins_witness :
    (bot_message cfgA sAlice updAlice).2
      = admin_broadcast (read_users (bot_message cfgA sAlice updAlice).1)
          (user_info_header (checked_user cfgA sAlice updAlice) ++ "hello")
        ++ [send_safe 42 cfgA.confirmation_message]
    ∧ user_info_header (checked_user cfgA sAlice updAlice)
        = "Alice A (@alice) (42)\n\n"
    ∧ (bot_message cfgA sAlice updAlice).2
        = [{ chat_id := 2, text := "Alice A (@alice) (42)\n\nhello" },
           { chat_id := 42, text := "Message sent" }] :=
  ⟨broadcast_to_admins cfgA sAlice updAlice (by decide) (by decide) (by decide),
   by decide, by decide⟩

/-- Behaviour of the ban and unban commands from a non-banned admin with an unparseable first
argument: the error text is sent back and the store is left exactly as the
prologue left it. -/
theorem ban_unban_parse_failure {cfg : Config} {s : Option (List User)}
    {upd : TUpdate} (ban : Bool) {a : String} {rest : List String}
    (hb : (checked_user cfg s upd).banned = false)
    (ha : (checked_user cfg s upd).admin = true)
    (hargs : upd.args = a :: rest)
    (hp : parse_int (strip a) = none) :
    bot_command_ban_unban ban cfg s upd
      = (checked_store cfg s upd,
         [send_safe upd.chat_id (int_parse_error (strip a))]) := by
  have h1 : ¬((checked_user cfg s upd).banned = true) := by
    rw [hb]; exact Bool.false_ne_true
  have h2 : ¬((!(checked_user cfg s upd).admin) = true) := by
    rw [ha]; exact Bool.false_ne_true
  simp only [bot_command_ban_unban]
  rw [if_neg h1, if_neg h2, checked_sends_not_banned hb, hargs]
  simp only [hp]
  rw [checked_user_id]
  rfl

/-- Behaviour of the ban and unban commands from a non-banned admin with a parseable target id:
the target profile is resolved-or-created, its `banned` flag set, the
result saved, and the fixed confirmation sent. -/
theorem ban_unban_success {cfg : Config} {s : Option (List User)}
    {upd : TUpdate} (ban : Bool) {a : String} {rest : List String} {t : Int}
    (hb : (checked_user cfg s upd).banned = false)
    (ha : (checked_user cfg s upd).admin = true)
    (hargs : upd.args = a :: rest)
    (hp : parse_int (strip a) = some t) :
    bot_command_ban_unban ban cfg s upd
      = (save_user (get_user_by_id (checked_store cfg s upd) t).2
           (some { (get_user_by_id (checked_store cfg s upd) t).1
                     with banned := ban }),
         [send_safe upd.chat_id
           (if ban then cfg.ban_confirmation_message
            else cfg.unban_confirmation_message)]) := by
  have h1 : ¬((checked_user cfg s upd).banned = true) := by
    rw [hb]; exact Bool.false_ne_true
  have h2 : ¬((!(checked_user cfg s upd).admin) = true) := by
    rw [ha]; exact Bool.false_ne_true
  simp only [bot_command_ban_unban]
  rw [if_neg h1, if_neg h2, checked_sends_not_banned hb, hargs]
  simp only [hp]
  rw [checked_user_id]
  rfl

/-- C4: `/ban` and `/unban` from a non-banned admin: an unparseable integer
argument yields the error reply with no store change beyond the prologue;
a parseable target id gets its `banned` flag set and persisted with the
fixed confirmation sent; and `/ban t` followed by `/unban t` (target
distinct from the acting admin) leaves the target's `banned` flag false. -/
theorem ban_unban_contract (ban : Bool) (cfg : Config)
    (s : Option (List User)) (upd : TUpdate) (a : String) (rest : List String)
    (hb : (checked_user cfg s upd).banned = false)
    (ha : (checked_user cfg s upd).admin = true)
    (hargs : upd.args = a :: rest) :
    (parse_int (strip a) = none →
      bot_command_ban_unban ban cfg s upd
        = (checked_store cfg s upd,
           [send_safe upd.chat_id (int_parse_error (strip a))]))
    ∧ (∀ t : Int, parse_int (strip a) = some t →
        (get_user_by_id (bot_command_ban_unban ban cfg s upd).1 t).1.banned = ban
        ∧ (bot_command_ban_unban ban cfg s upd).2
            = [send_safe upd.chat_id
                (if ban then cfg.ban_confirmation_message
                 else cfg.unban_confirmation_message)])
    ∧ (∀ t : Int, parse_int (strip a) = some t → t ≠ upd.chat_id →
        (get_user_by_id
            (bot_command_ban_unban false cfg
              (bot_command_ban_unban true cfg s upd).1 upd).1 t).1.banned
          = false) := by
  refine ⟨fun hp => ban_unban_parse_failure ban hb ha hargs hp,
    fun t hp => ?_, fun t hp hne => ?_⟩
  · have he := ban_unban_success ban hb ha hargs hp
    have hst : (bot_command_ban_unban ban cfg s upd).1
        = save_user (get_user_by_id (checked_store cfg s upd) t).2
            (some { (get_user_by_id (checked_store cfg s upd) t).1
                      with banned := ban }) := by rw [he]
    have hid : ({ (get_user_by_id (checked_store cfg s upd) t).1
        with banned := ban } : User).id = t := get_fst_id _ t
    constructor
    · rw [hst, get_found (find_save_self hid _)]
    · rw [he]
  · have he1 := @ban_unban_success cfg s upd true a rest t hb ha hargs hp
    have hst1 : (bot_command_ban_unban true cfg s upd).1
        = save_user (get_user_by_id (checked_store cfg s upd) t).2
            (some { (get_user_by_id (checked_store cfg s upd) t).1
                      with banned := true }) := by rw [he1]
    have hTid : ({ (get_user_by_id (checked_store cfg s upd) t).1
        with banned := true } : User).id = t := get_fst_id _ t
    have hne1 : upd.chat_id
        ≠ ({ (get_user_by_id (checked_store cfg s upd) t).1
              with banned := true } : User).id := by
      rw [hTid]; exact fun e => hne e.symm
    have hfs : find_user
        (read_users (bot_command_ban_unban true cfg s upd).1) upd.chat_id
          = some (checked_user cfg s upd) := by
      rw [hst1, find_save_other hne1, find_get_other (fun e => hne e.symm),
        checked_persisted]
    have hb2 : (checked_user cfg (bot_command_ban_unban true cfg s upd).1
        upd).banned = false := by
      rw [checked_user_eq, get_found hfs, refreshed_banned]; exact hb
    have ha2 : (checked_user cfg (bot_command_ban_unban true cfg s upd).1
        upd).admin = true := by
      rw [checked_user_eq, get_found hfs, refreshed_admin]; exact ha
    have he2 := @ban_unban_success cfg
      (bot_command_ban_unban true cfg s upd).1 upd false a rest t
      hb2 ha2 hargs hp
    have hst2 : (bot_command_ban_unban false cfg
        (bot_command_ban_unban true cfg s upd).1 upd).1
          = save_user
              (get_user_by_id
                (checked_store cfg (bot_command_ban_unban true cfg s upd).1 upd)
                t).2
              (some { (get_user_by_id
                  (checked_store cfg (bot_command_ban_unban true cfg s upd).1
                    upd) t).1 with banned := false }) := by rw [he2]
    have hid2 : ({ (get_user_by_id
        (checked_store cfg (bot_command_ban_unban true cfg s upd).1 upd) t).1
          with banned := false } : User).id = t := get_fst_id _ t
    rw [hst2, get_found (find_save_self hid2 _)]

/-- C4 witness: the admin with id 2 runs `/ban 42` then `/unban 42`; the
ban confirmation is sent and the target ends unbanned. -/
theorem ban_unban_contract_witness :
    (get_user_by_id
        (bot_command_ban_unban false cfgA
          (bot_command_ban_unban true cfgA sAdmins updBan).1 updBan).1
        42).1.banned = false
    ∧ (bot_command_ban_unban true cfgA sAdmins updBan).2
        = [send_safe 2 cfgA.ban_confirmation_message] := by
  have h := ban_unban_contract true cfgA sAdmins updBan "42" []
    (by decide) (by decide) rfl
  exact ⟨h.2.2 42 (by decide) (by decide), (h.2.1 42 (by decide)).2⟩

/-- C9 counterexample: with `restart_message_done = "Done\\t!"`, the
deferred post-restart notice produced by `/restart` still carries the
literal `\\t` — its text differs from the fully escape-expanded text, so
not every outbound message has `\\t` expanded. -/
theorem restart_done_tab_unexpanded :
    (bot_command_restart cfgA sRoot updRoot).2.2.2
      = some { chat_id := 9, text := "Done\\t!" }
    ∧ "Done\\t!" ≠ expand_message "Done\\t!"
    ∧ expand_message "Done\\t!" = "Done\t!" :=
  ⟨by decide, by decide, by decide⟩

theorem all_expanded_nil : all_expanded [] := by
  intro m hm
  exact absurd hm (List.not_mem_nil m)

theorem all_expanded_append {xs ys : List Send} (hx : all_expanded xs)
    (hy : all_expanded ys) : all_expanded (xs ++ ys) := by
  intro m hm
  rcases List.mem_append.mp hm with h | h
  exacts [hx m h, hy m h]

theorem all_expanded_single (c : Int) (t : String) :
    all_expanded [send_safe c t] := by
  intro m hm
  rw [List.mem_singleton] at hm
  exact ⟨t, by rw [hm]; rfl⟩

theorem all_expanded_banned_notice (cfg : Config) (cid : Int) :
    all_expanded (banned_notice cfg cid) := by
  rw [banned_notice]
  split
  · exact all_expanded_single _ _
  · exact all_expanded_nil

theorem all_expanded_checked_sends (cfg : Config) (s : Option (List User))
    (upd : TUpdate) : all_expanded (checked_sends cfg s upd) := by
  rw [checked_sends_eq]
  split
  · exact all_expanded_banned_notice _ _
  · exact all_expanded_nil

theorem all_expanded_broadcast (users : List User) (text : String) :
    all_expanded (admin_broadcast users text) := by
  intro m hm
  rw [admin_broadcast] at hm
  rcases List.mem_map.mp hm with ⟨u, _, rfl⟩
  exact ⟨text, rfl⟩

/-- C9 amended: every message sent through `_send_safe` — that is, every
immediate outbound message of every handler — has the `\\n` and `\\t`
escapes expanded; the single exception is the deferred post-restart notice,
sent directly by the watcher thread, which expands only `\\n` and leaves
`\\t` literal. -/
theorem escape_expansion_amended (cfg : Config) (form : String)
    (s : Option (List User)) (upd : TUpdate) :
    all_expanded (bot_message cfg s upd).2
    ∧ all_expanded (bot_command_start cfg form s upd).2
    ∧ all_expanded (bot_command_chatid cfg s upd).2
    ∧ all_expanded (bot_command_users cfg s upd).2
    ∧ (∀ b, all_expanded (bot_command_ban_unban b cfg s upd).2)
    ∧ all_expanded (bot_command_resetmessages cfg s upd).2
    ∧ all_expanded (bot_command_restart cfg s upd).2.1
    ∧ (∀ d, (bot_command_restart cfg s upd).2.2.2 = some d →
        d.text = restart_done_text cfg.restart_message_done)
    ∧ expand_message "a\\nb\\tc" = "a\nb\tc"
    ∧ restart_done_text "a\\nb\\tc" = "a\nb\\tc" := by
  refine ⟨?_, ?_, ?_, ?_, fun b => ?_, ?_, ?_, fun d hd => ?_,
    by decide, by decide⟩
  · simp only [bot_message]
    split_ifs
    · exact all_expanded_checked_sends cfg s upd
    · exact all_expanded_checked_sends cfg s upd
    · exact all_expanded_append
        (all_expanded_append (all_expanded_checked_sends cfg s upd)
          (all_expanded_broadcast _ _))
        (all_expanded_single _ _)
    · exact all_expanded_checked_sends cfg s upd
  · simp only [bot_command_start]
    split_ifs
    · exact all_expanded_checked_sends cfg s upd
    · exact all_expanded_append (all_expanded_checked_sends cfg s upd)
        (all_expanded_single _ _)
    · exact all_expanded_append (all_expanded_checked_sends cfg s upd)
        (all_expanded_single _ _)
  · exact all_expanded_append (all_expanded_checked_sends cfg s upd)
      (all_expanded_single _ _)
  · simp only [bot_command_users]
    split_ifs
    · exact all_expanded_checked_sends cfg s upd
    · exact all_expanded_checked_sends cfg s upd
    · exact all_expanded_append (all_expanded_checked_sends cfg s upd)
        (all_expanded_single _ _)
  · simp only [bot_command_ban_unban]
    split_ifs <;>
      first
        | exact all_expanded_checked_sends cfg s upd
        | (cases hl : upd.args with
           | nil => exact all_expanded_checked_sends cfg s upd
           | cons a as =>
             cases hp : parse_int (strip a) with
             | none =>
               simp only [hp]
               exact all_expanded_append (all_expanded_checked_sends cfg s upd)
                 (all_expanded_single _ _)
             | some t =>
               simp only [hp]
               exact all_expanded_append (all_expanded_checked_sends cfg s upd)
                 (all_expanded_single _ _))
  · simp only [bot_command_resetmessages]
    split_ifs
    · exact all_expanded_checked_sends cfg s upd
    · exact all_expanded_checked_sends cfg s upd
    · cases hl : upd.args with
      | nil => exact all_expanded_checked_sends cfg s upd
      | cons a as =>
        cases hp : parse_int (strip a) with
        | none =>
          simp only [hp]
          exact all_expanded_append (all_expanded_checked_sends cfg s upd)
            (all_expanded_single _ _)
        | some t =>
          simp only [hp]
          exact all_expanded_append (all_expanded_checked_sends cfg s upd)
            (all_expanded_single _ _)
  · simp only [bot_command_restart]
    split_ifs
    · exact all_expanded_checked_sends cfg s upd
    · exact all_expanded_checked_sends cfg s upd
    · exact all_expanded_append (all_expanded_checked_sends cfg s upd)
        (all_expanded_single _ _)
  · simp only [bot_command_restart] at hd
    split_ifs at hd
    simp only [Option.some.injEq] at hd
    rw [← hd]

/-- C9 amended witness: concrete `/restart` by the admin with id 9 under
`cfgA`; the deferred notice text is the only-newline-expanded template, and
the Alice relay's sends are all fully expanded. -/
theorem escape_expansion_amended_witness :
    dRoot.text = restart_done_text cfgA.restart_message_done
    ∧ all_expanded (bot_message cfgA sAlice updAlice).2 :=
  ⟨(escape_expansion_amended cfgA "" sRoot updRoot).2.2.2.2.2.2.2.1 dRoot
     (by decide),
   (escape_expansion_amended cfgA "" sAlice updAlice).1⟩
